import Mathlib

/-!
Shallow embedding of `src/srt-protocol/src/protocol/receiver/mod.rs`: the
`ReceiverContext` orchestrator of the SRT receiver. The ARQ engine
(`arq.rs`), decryption (`encryption.rs`), timers (`time.rs`) and the wire
packet types live outside the analysed source; the context only consumes
their results, so each handler below takes the collaborator's answer as an
explicit parameter and the collaborator state is modelled from the spec
where an effect of the context on it must be tracked.
-/

namespace SrtReceiver

/-- Modelled from the spec: decryption failures (`encryption.rs` is outside
the analysed source); only their presence matters to the context. -/
inductive DecryptionError
  | badKey (code : Nat)
deriving DecidableEq, Repr

/-- Modelled from the spec: `DataPacket{seq_number, msg_number, timestamp,
dest_socket_id, payload}` (packet definitions are outside the analysed
source). -/
structure DataPacket where
  seq_number : Nat
  msg_number : Nat
  timestamp : Nat
  dest_socket_id : Nat
  payload : List Nat
deriving DecidableEq, Repr

/-- Modelled from the spec: the wire size of a data packet is the fixed
packet header plus the payload length. -/
def DataPacket.wire_size (d : DataPacket) : Nat :=
  16 + d.payload.length

/-- Modelled from the spec: an ordered sequence of missing sequence numbers
or ranges; the context treats it as the opaque payload of a NAK. -/
structure CompressedLossList where
  entries : List Nat
deriving DecidableEq, Repr

/-- Modelled from the spec: the body of a Full ACK produced by the ARQ. -/
structure FullAckData where
  ack_seq_no : Nat
  acked_up_to : Nat
  rtt_mean : Nat
  rtt_variance : Nat
  available_buffer_size : Nat
deriving DecidableEq, Repr

/-- Modelled from the spec: the `Acknowledgement` control payload, `Full`
with RTT and rate data or `Lite` with just a sequence number. -/
inductive Acknowledgement
  | Lite (seq : Nat)
  | Full (ack : FullAckData)
deriving DecidableEq, Repr

/-- Modelled from the spec: key material carried by key-refresh messages;
opaque to the context. -/
structure KeyingMaterialMessage where
  material : Nat
deriving DecidableEq, Repr

/-- Modelled from the spec: the SRT-extension control packets the receiver
emits; only `KeyRefreshResponse` occurs in the analysed source. -/
inductive SrtControlPacket
  | KeyRefreshResponse (km : KeyingMaterialMessage)
deriving DecidableEq, Repr

/-- Modelled from the spec: the control packet kinds the receiver emits:
`Ack`, `Nak`, and SRT extension packets. -/
inductive ControlTypes
  | Ack (a : Acknowledgement)
  | Nak (loss : CompressedLossList)
  | Srt (p : SrtControlPacket)
deriving DecidableEq, Repr

/-- `DataPacketError` from `receiver/mod.rs` (field payloads of each
variant kept; `SeqNumber` embedded as `Nat`). -/
inductive DataPacketError
  | BufferFull (seq_number : Nat) (buffer_size : Nat)
  | PacketTooEarly (seq_number : Nat) (buffer_available : Nat) (buffer_required : Nat)
  | PacketTooLate (seq_number : Nat) (seq_number_0 : Nat)
  | DiscardedDuplicate (seq_number : Nat)
  | DecryptionError (e : SrtReceiver.DecryptionError)
deriving DecidableEq, Repr

/-- `DataPacketAction` from `receiver/mod.rs`. -/
inductive DataPacketAction
  | Received (lrsn : Nat) (recovered : Bool)
  | ReceivedWithLoss (loss : CompressedLossList)
  | ReceivedWithLightAck (light_ack : Nat) (recovered : Bool)
deriving DecidableEq, Repr

/-- `DataPacketAction::is_recovered` from `receiver/mod.rs`. -/
def DataPacketAction.is_recovered : DataPacketAction → Bool
  | .Received _ recovered => recovered
  | .ReceivedWithLightAck _ recovered => recovered
  | .ReceivedWithLoss _ => false

/-- The receiver-side counters of `SocketStatistics` touched by
`ReceiverContext` (statistics module is outside the analysed source; the
counters are plain saturating-free integers, embedded as `Nat`). -/
structure SocketStatistics where
  rx_data : Nat
  rx_bytes : Nat
  rx_unique_data : Nat
  rx_unique_bytes : Nat
  rx_retransmit_data : Nat
  rx_dropped_data : Nat
  rx_dropped_bytes : Nat
  rx_decrypted_data : Nat
  rx_decrypt_errors : Nat
  rx_decrypt_error_bytes : Nat
  rx_ack2 : Nat
  rx_ack2_errors : Nat
  rx_clock_adjustments : Nat
deriving DecidableEq, Repr

/-- Modelled from the spec: the external timer service sinks RTT samples
via `update_rtt` (`protocol/time.rs` is outside the analysed source), so
the model records the sequence of samples it has been given. -/
structure Timers where
  rtt_samples : List Nat
deriving DecidableEq, Repr

/-- Modelled from the spec: `Timers::update_rtt` sinks one new RTT
sample. -/
def Timers.update_rtt (t : Timers) (rtt : Nat) : Timers :=
  { rtt_samples := rtt :: t.rtt_samples }

/-- Modelled from the spec: the ARQ engine state is opaque to the context
except for `clear`, which releases all buffer contents. -/
structure ArqState where
  buffer_contents : List Nat
deriving DecidableEq, Repr

/-- Modelled from the spec: `clear` releases all buffer contents and is
idempotent. -/
def ArqState.clear (_a : ArqState) : ArqState :=
  { buffer_contents := [] }

/-- The state reachable through a `ReceiverContext`: the timer service, the
output sink (`send_control` is a non-blocking enqueue, so the sink is the
list of control packets sent so far, in order), the statistics bundle and
the receiver's ARQ state. -/
structure ReceiverContext where
  timers : Timers
  output : List ControlTypes
  stats : SocketStatistics
  arq : ArqState
deriving DecidableEq, Repr

/-- `Output::send_control`: enqueue one control packet. -/
def send_control (st : ReceiverContext) (packet : ControlTypes) : ReceiverContext :=
  { st with output := st.output ++ [packet] }

/-- `ReceiverContext::synchronize_clock`: the ARQ's clock adjustment (its
result passed in) bumps `rx_clock_adjustments` when present. -/
def synchronize_clock (st : ReceiverContext) (adjustment : Option Int) : ReceiverContext :=
  match adjustment with
  | some _ =>
    { st with stats := { st.stats with
        rx_clock_adjustments := st.stats.rx_clock_adjustments + 1 } }
  | none => st

/-- The `Ok(action)` arm of the match in
`ReceiverContext::handle_data_packet`: retransmit/unique accounting
followed by the per-action control emission. `bytes` is the wire size of
the incoming packet. -/
def applyDataPacketAction (st : ReceiverContext) (bytes : Nat)
    (action : DataPacketAction) : ReceiverContext :=
  let st2 :=
    if action.is_recovered then
      { st with stats := { st.stats with
          rx_retransmit_data := st.stats.rx_retransmit_data + 1 } }
    else
      { st with stats := { st.stats with
          rx_unique_data := st.stats.rx_unique_data + 1,
          rx_unique_bytes := st.stats.rx_unique_bytes + bytes } }
  match action with
  | .ReceivedWithLoss loss_list =>
    send_control st2 (ControlTypes.Nak loss_list)
  | .ReceivedWithLightAck light_ack _ =>
    send_control st2 (ControlTypes.Ack (Acknowledgement.Lite light_ack))
  | _ => st2

/-- The `Err(e)` arm of the match in
`ReceiverContext::handle_data_packet`: drop and decrypt-error accounting.
`bytes` is the wire size of the incoming packet. -/
def applyDataPacketError (st : ReceiverContext) (bytes : Nat) :
    DataPacketError → ReceiverContext
  | .BufferFull _ _ | .PacketTooEarly _ _ _ | .PacketTooLate _ _ =>
    { st with stats := { st.stats with
        rx_dropped_data := st.stats.rx_dropped_data + 1,
        rx_dropped_bytes := st.stats.rx_dropped_bytes + bytes } }
  | .DecryptionError _ =>
    { st with stats := { st.stats with
        rx_decrypt_errors := st.stats.rx_decrypt_errors + 1,
        rx_decrypt_error_bytes := st.stats.rx_decrypt_error_bytes + bytes } }
  | .DiscardedDuplicate _ => st

/-- `ReceiverContext::handle_data_packet`. `decrypted` is the result of
`Decryption::decrypt` (decrypted byte count and plaintext packet, or an
error) and `arqAction` the result of the ARQ's `handle_data_packet`; both
collaborators live outside the analysed source. The body mirrors the Rust:
unconditional `rx_data`/`rx_bytes` update, then `decrypt(...)`
`.map_err(DataPacketError::DecryptionError)` `.and_then(...)` counting
`rx_decrypted_data` and consulting the ARQ only on decryption success,
then the match on the combined result, whose two arms are the named
functions above. -/
def handle_data_packet (st : ReceiverContext) (data : DataPacket)
    (decrypted : Except DecryptionError (Nat × DataPacket))
    (arqAction : Except DataPacketError DataPacketAction) : ReceiverContext :=
  let bytes := data.wire_size
  let st0 := { st with stats := { st.stats with
      rx_data := st.stats.rx_data + 1,
      rx_bytes := st.stats.rx_bytes + bytes } }
  match decrypted with
  | .error e => applyDataPacketError st0 bytes (DataPacketError.DecryptionError e)
  | .ok (decrypted_bytes, _data) =>
    let st1 :=
      if decrypted_bytes > 0 then
        { st0 with stats := { st0.stats with
            rx_decrypted_data := st0.stats.rx_decrypted_data + 1 } }
      else st0
    match arqAction with
    | .ok action => applyDataPacketAction st1 bytes action
    | .error e => applyDataPacketError st1 bytes e

/-- `ReceiverContext::handle_ack2_packet`. `rtt` is the result of the
ARQ's `handle_ack2_packet` (microseconds, embedded as `Nat`): mirrors
the Rust exactly — unconditional `rx_ack2` increment, then on `Some(rtt)`
both `timers.update_rtt(rtt)` and the `rx_ack2_errors` increment. -/
def handle_ack2_packet (st : ReceiverContext) (rtt : Option Nat) : ReceiverContext :=
  let st0 := { st with stats := { st.stats with rx_ack2 := st.stats.rx_ack2 + 1 } }
  match rtt with
  | some r =>
    let st1 := { st0 with timers := st0.timers.update_rtt r }
    { st1 with stats := { st1.stats with
        rx_ack2_errors := st1.stats.rx_ack2_errors + 1 } }
  | none => st0

/-- `ReceiverContext::handle_drop_request`. `dropped` is the count returned
by the ARQ's `handle_drop_request`. -/
def handle_drop_request (st : ReceiverContext) (dropped : Nat) : ReceiverContext :=
  if dropped > 0 then
    { st with stats := { st.stats with
        rx_dropped_data := st.stats.rx_dropped_data + dropped } }
  else st

/-- Modelled from the spec: failures of `refresh_key_material` on malformed
or unauthenticated key material (`encryption.rs` is outside the analysed
source). -/
inductive KeyRefreshError
  | malformed (code : Nat)
deriving DecidableEq, Repr

/-- `ReceiverContext::handle_key_refresh_request`. `refreshed` is the
result of `Decryption::refresh_key_material`: `Ok(Some(response))` for new
key material, `Ok(None)` for a duplicate, `Err` for malformed material. -/
def handle_key_refresh_request (st : ReceiverContext)
    (refreshed : Except KeyRefreshError (Option KeyingMaterialMessage)) : ReceiverContext :=
  match refreshed with
  | .ok (some response) =>
    send_control st (ControlTypes.Srt (SrtControlPacket.KeyRefreshResponse response))
  | .ok none => st
  | .error _ => st

/-- `ReceiverContext::on_full_ack_event`. `ack` is the result of the ARQ's
`on_full_ack_event`. -/
def on_full_ack_event (st : ReceiverContext) (ack : Option Acknowledgement) : ReceiverContext :=
  match ack with
  | some a => send_control st (ControlTypes.Ack a)
  | none => st

/-- `ReceiverContext::on_nak_event`. `loss` is the result of the ARQ's
`on_nak_event`. -/
def on_nak_event (st : ReceiverContext) (loss : Option CompressedLossList) : ReceiverContext :=
  match loss with
  | some loss_list => send_control st (ControlTypes.Nak loss_list)
  | none => st

/-- `ReceiverContext::on_close_timeout`: calls `self.receiver.arq.clear()`
and nothing else. -/
def on_close_timeout (st : ReceiverContext) : ReceiverContext :=
  { st with arq := st.arq.clear }

/-- One protocol event offered to the context, carrying the collaborator
results the corresponding handler consumes. -/
inductive ReceiverEvent
  | dataPacket (data : DataPacket)
      (decrypted : Except DecryptionError (Nat × DataPacket))
      (arqAction : Except DataPacketError DataPacketAction)
  | ack2Packet (rtt : Option Nat)
  | dropRequest (dropped : Nat)
  | keyRefreshRequest (refreshed : Except KeyRefreshError (Option KeyingMaterialMessage))
  | clockSync (adjustment : Option Int)
  | fullAckEvent (ack : Option Acknowledgement)
  | nakEvent (loss : Option CompressedLossList)
  | closeTimeout
deriving Repr

/-- Dispatch of one event to its `ReceiverContext` handler. -/
def stepEvent (st : ReceiverContext) : ReceiverEvent → ReceiverContext
  | .dataPacket data decrypted arqAction => handle_data_packet st data decrypted arqAction
  | .ack2Packet rtt => handle_ack2_packet st rtt
  | .dropRequest dropped => handle_drop_request st dropped
  | .keyRefreshRequest refreshed => handle_key_refresh_request st refreshed
  | .clockSync adjustment => synchronize_clock st adjustment
  | .fullAckEvent ack => on_full_ack_event st ack
  | .nakEvent loss => on_nak_event st loss
  | .closeTimeout => on_close_timeout st

/-- Processing of a whole event sequence, in arrival order. -/
def runEvents (st : ReceiverContext) : List ReceiverEvent → ReceiverContext
  | [] => st
  | e :: rest => runEvents (stepEvent st e) rest

/-- Whether an event is an ACK2 packet. -/
def isAck2 : ReceiverEvent → Bool
  | .ack2Packet _ => true
  | _ => false

/-- Number of ACK2 packets in an event sequence. -/
def countAck2 : List ReceiverEvent → Nat
  | [] => 0
  | e :: rest => (if isAck2 e then 1 else 0) + countAck2 rest

/-- The context state at connection creation: no RTT samples sunk, nothing
sent, all statistics counters zero, empty receive buffer. -/
def initialContext : ReceiverContext :=
  { timers := { rtt_samples := [] }
    output := []
    stats :=
      { rx_data := 0, rx_bytes := 0, rx_unique_data := 0, rx_unique_bytes := 0
        rx_retransmit_data := 0, rx_dropped_data := 0, rx_dropped_bytes := 0
        rx_decrypted_data := 0, rx_decrypt_errors := 0, rx_decrypt_error_bytes := 0
        rx_ack2 := 0, rx_ack2_errors := 0, rx_clock_adjustments := 0 }
    arq := { buffer_contents := [] } }

/-- Modelled from the spec: the per-connection lifecycle states
`Open → Draining → Closed` (the state machine itself lives in connection
code outside the analysed source). -/
inductive ConnectionState
  | Open
  | Draining
  | Closed
deriving DecidableEq, Repr

/-- Whether an event is one of the timer events (full-ACK tick, NAK tick,
close timeout). -/
def isTimerEvent : ReceiverEvent → Bool
  | .fullAckEvent _ => true
  | .nakEvent _ => true
  | .closeTimeout => true
  | _ => false

/-- Modelled from the spec: which events each connection state accepts —
`Open` accepts all events, `Draining` accepts only timer events, `Closed`
treats every event as a no-op. -/
def accepts : ConnectionState → ReceiverEvent → Bool
  | .Open, _ => true
  | .Draining, e => isTimerEvent e
  | .Closed, _ => false

/-- Modelled from the spec: the state transition — `on_close_timeout`
forces `Closed`; no other event changes the lifecycle state. -/
def connStep : ConnectionState → ReceiverEvent → ConnectionState
  | _, .closeTimeout => ConnectionState.Closed
  | s, _ => s

/-- Modelled from the spec: event processing refined by connection state.
`Open` processes every event; `Draining` processes only timer events and
produces no further NAKs (the NAK tick is suppressed); `Closed` ignores
everything. -/
def stepInState : ConnectionState → ReceiverContext → ReceiverEvent → ReceiverContext
  | .Open, st, e => stepEvent st e
  | .Draining, st, e =>
    if isTimerEvent e then
      match e with
      | .nakEvent _ => st
      | other => stepEvent st other
    else st
  | .Closed, st, _ => st

/-! ## Helper lemmas -/

theorem handle_ack2_rx_ack2 (st : ReceiverContext) (rtt : Option Nat) :
    (handle_ack2_packet st rtt).stats.rx_ack2 = st.stats.rx_ack2 + 1 := by
  cases rtt <;> simp [handle_ack2_packet]

theorem handle_data_packet_ack2_frame (st : ReceiverContext) (data : DataPacket)
    (decrypted : Except DecryptionError (Nat × DataPacket))
    (arqAction : Except DataPacketError DataPacketAction) :
    (handle_data_packet st data decrypted arqAction).stats.rx_ack2 = st.stats.rx_ack2 ∧
    (handle_data_packet st data decrypted arqAction).stats.rx_ack2_errors =
      st.stats.rx_ack2_errors := by
  rcases decrypted with e | ⟨db, d2⟩
  · simp [handle_data_packet, applyDataPacketError]
  · rcases arqAction with e | action
    · cases e <;>
        simp [handle_data_packet, applyDataPacketError] <;> split <;> simp
    · cases action <;>
        simp [handle_data_packet, applyDataPacketAction, send_control,
          DataPacketAction.is_recovered] <;>
        (repeat' split) <;> simp

theorem stepEvent_ack2_counters (st : ReceiverContext) (e : ReceiverEvent) :
    (stepEvent st e).stats.rx_ack2 =
      st.stats.rx_ack2 + (if isAck2 e then 1 else 0) ∧
    (stepEvent st e).stats.rx_ack2_errors ≤
      st.stats.rx_ack2_errors + (if isAck2 e then 1 else 0) := by
  cases e with
  | dataPacket data decrypted arqAction =>
    have h := handle_data_packet_ack2_frame st data decrypted arqAction
    simp [stepEvent, isAck2, h.1, h.2]
  | ack2Packet rtt =>
    cases rtt <;> simp [stepEvent, isAck2, handle_ack2_packet]
  | dropRequest dropped =>
    simp only [stepEvent, isAck2, handle_drop_request]
    split <;> simp
  | keyRefreshRequest refreshed =>
    rcases refreshed with e | r
    · simp [stepEvent, isAck2, handle_key_refresh_request]
    · cases r <;> simp [stepEvent, isAck2, handle_key_refresh_request, send_control]
  | clockSync adjustment =>
    cases adjustment <;> simp [stepEvent, isAck2, synchronize_clock]
  | fullAckEvent ack =>
    cases ack <;> simp [stepEvent, isAck2, on_full_ack_event, send_control]
  | nakEvent loss =>
    cases loss <;> simp [stepEvent, isAck2, on_nak_event, send_control]
  | closeTimeout =>
    simp [stepEvent, isAck2, on_close_timeout]

theorem runEvents_ack2_counters (evs : List ReceiverEvent) (st : ReceiverContext) :
    (runEvents st evs).stats.rx_ack2 = st.stats.rx_ack2 + countAck2 evs ∧
    (runEvents st evs).stats.rx_ack2_errors ≤
      st.stats.rx_ack2_errors + countAck2 evs := by
  induction evs generalizing st with
  | nil => simp [runEvents, countAck2]
  | cons e rest ih =>
    have hstep := stepEvent_ack2_counters st e
    have hrest := ih (stepEvent st e)
    refine ⟨?_, ?_⟩
    · rw [runEvents, hrest.1, hstep.1, countAck2]
      omega
    · calc (runEvents (stepEvent st e) rest).stats.rx_ack2_errors
          ≤ (stepEvent st e).stats.rx_ack2_errors + countAck2 rest := hrest.2
        _ ≤ st.stats.rx_ack2_errors + (if isAck2 e then 1 else 0) + countAck2 rest := by
            have := hstep.2; omega
        _ = st.stats.rx_ack2_errors + countAck2 (e :: rest) := by
            rw [countAck2]; omega

/-! ## Claim theorems -/

/-- C1: evaluation of the code at the failing input. When the ARQ's ACK2
lookup fails (it returns `some rtt_mean`, here 5000 µs), the handler does
not leave the timers untouched: it forwards the value to
`Timers.update_rtt` in addition to the `rx_ack2` and `rx_ack2_errors`
increments — contrary to the claim (and spec §7) that the statistics
increment is the only effect and the timers' RTT is unchanged. -/
theorem ack2_not_found_changes_timer_rtt :
    (handle_ack2_packet initialContext (some 5000)).timers ≠ initialContext.timers ∧
    (handle_ack2_packet initialContext (some 5000)).timers.rtt_samples = [5000] ∧
    (handle_ack2_packet initialContext (some 5000)).stats.rx_ack2_errors = 1 ∧
    (handle_ack2_packet initialContext (some 5000)).stats.rx_ack2 = 1 := by
  refine ⟨?_, rfl, rfl, rfl⟩
  decide

/-- C2: `handle_ack2_packet` increments `rx_ack2_errors` by one exactly
when the ARQ's `handle_ack2_packet` returns `some` (the not-found case);
on `none` (successful RTT sample) it leaves `rx_ack2_errors` unchanged. -/
theorem rx_ack2_errors_iff_not_found (st : ReceiverContext) (rtt : Option Nat) :
    (handle_ack2_packet st rtt).stats.rx_ack2_errors =
      st.stats.rx_ack2_errors + (if rtt.isSome then 1 else 0) ∧
    ((handle_ack2_packet st rtt).stats.rx_ack2_errors ≠ st.stats.rx_ack2_errors ↔
      rtt.isSome = true) := by
  cases rtt <;> simp [handle_ack2_packet]

/-- C3: control-packet emission per data packet: a `ReceivedWithLoss`
classification sends exactly one NAK carrying the loss list, a
`ReceivedWithLightAck` exactly one Lite ACK carrying the light-ack
sequence number, and every other outcome (plain `Received`, any ARQ error,
or a decryption failure) sends nothing — so at most one control packet is
emitted per data-packet event. -/
theorem data_packet_control_emission (st : ReceiverContext) (data d2 : DataPacket)
    (db lrsn la : Nat) (rec : Bool) (loss : CompressedLossList)
    (e : DataPacketError) (de : DecryptionError)
    (arqAction : Except DataPacketError DataPacketAction) :
    (handle_data_packet st data (.ok (db, d2))
        (.ok (DataPacketAction.ReceivedWithLoss loss))).output =
      st.output ++ [ControlTypes.Nak loss] ∧
    (handle_data_packet st data (.ok (db, d2))
        (.ok (DataPacketAction.ReceivedWithLightAck la rec))).output =
      st.output ++ [ControlTypes.Ack (Acknowledgement.Lite la)] ∧
    (handle_data_packet st data (.ok (db, d2))
        (.ok (DataPacketAction.Received lrsn rec))).output = st.output ∧
    (handle_data_packet st data (.ok (db, d2)) (.error e)).output = st.output ∧
    (handle_data_packet st data (.error de) arqAction).output = st.output := by
  refine ⟨?_, ?_, ?_, ?_, ?_⟩
  · simp only [handle_data_packet, applyDataPacketAction, send_control,
      DataPacketAction.is_recovered]
    (repeat' split) <;> simp
  · simp only [handle_data_packet, applyDataPacketAction, send_control,
      DataPacketAction.is_recovered]
    (repeat' split) <;> simp
  · simp only [handle_data_packet, applyDataPacketAction, send_control,
      DataPacketAction.is_recovered]
    (repeat' split) <;> simp
  · cases e <;>
      simp [handle_data_packet, applyDataPacketError] <;> (repeat' split) <;> simp
  · simp [handle_data_packet, applyDataPacketError]

/-- C4: error accounting in `handle_data_packet`: `BufferFull`,
`PacketTooEarly` and `PacketTooLate` each increment `rx_dropped_data` by
one and `rx_dropped_bytes` by the packet's wire size while leaving the
decrypt-error counters alone; a decryption failure instead increments
`rx_decrypt_errors` by one and `rx_decrypt_error_bytes` by the wire size
while leaving the drop counters alone. -/
theorem data_packet_error_stats (st : ReceiverContext) (data d2 : DataPacket)
    (db sn bs ba br s0 : Nat) (de : DecryptionError)
    (arqAction : Except DataPacketError DataPacketAction) :
    ((handle_data_packet st data (.ok (db, d2))
        (.error (DataPacketError.BufferFull sn bs))).stats.rx_dropped_data =
        st.stats.rx_dropped_data + 1 ∧
      (handle_data_packet st data (.ok (db, d2))
        (.error (DataPacketError.BufferFull sn bs))).stats.rx_dropped_bytes =
        st.stats.rx_dropped_bytes + data.wire_size ∧
      (handle_data_packet st data (.ok (db, d2))
        (.error (DataPacketError.BufferFull sn bs))).stats.rx_decrypt_errors =
        st.stats.rx_decrypt_errors ∧
      (handle_data_packet st data (.ok (db, d2))
        (.error (DataPacketError.BufferFull sn bs))).stats.rx_decrypt_error_bytes =
        st.stats.rx_decrypt_error_bytes) ∧
    ((handle_data_packet st data (.ok (db, d2))
        (.error (DataPacketError.PacketTooEarly sn ba br))).stats.rx_dropped_data =
        st.stats.rx_dropped_data + 1 ∧
      (handle_data_packet st data (.ok (db, d2))
        (.error (DataPacketError.PacketTooEarly sn ba br))).stats.rx_dropped_bytes =
        st.stats.rx_dropped_bytes + data.wire_size ∧
      (handle_data_packet st data (.ok (db, d2))
        (.error (DataPacketError.PacketTooEarly sn ba br))).stats.rx_decrypt_errors =
        st.stats.rx_decrypt_errors ∧
      (handle_data_packet st data (.ok (db, d2))
        (.error (DataPacketError.PacketTooEarly sn ba br))).stats.rx_decrypt_error_bytes =
        st.stats.rx_decrypt_error_bytes) ∧
    ((handle_data_packet st data (.ok (db, d2))
        (.error (DataPacketError.PacketTooLate sn s0))).stats.rx_dropped_data =
        st.stats.rx_dropped_data + 1 ∧
      (handle_data_packet st data (.ok (db, d2))
        (.error (DataPacketError.PacketTooLate sn s0))).stats.rx_dropped_bytes =
        st.stats.rx_dropped_bytes + data.wire_size ∧
      (handle_data_packet st data (.ok (db, d2))
        (.error (DataPacketError.PacketTooLate sn s0))).stats.rx_decrypt_errors =
        st.stats.rx_decrypt_errors ∧
      (handle_data_packet st data (.ok (db, d2))
        (.error (DataPacketError.PacketTooLate sn s0))).stats.rx_decrypt_error_bytes =
        st.stats.rx_decrypt_error_bytes) ∧
    ((handle_data_packet st data (.error de) arqAction).stats.rx_decrypt_errors =
        st.stats.rx_decrypt_errors + 1 ∧
      (handle_data_packet st data (.error de) arqAction).stats.rx_decrypt_error_bytes =
        st.stats.rx_decrypt_error_bytes + data.wire_size ∧
      (handle_data_packet st data (.error de) arqAction).stats.rx_dropped_data =
        st.stats.rx_dropped_data ∧
      (handle_data_packet st data (.error de) arqAction).stats.rx_dropped_bytes =
        st.stats.rx_dropped_bytes) := by
  refine ⟨⟨?_, ?_, ?_, ?_⟩, ⟨?_, ?_, ?_, ?_⟩, ⟨?_, ?_, ?_, ?_⟩, ⟨?_, ?_, ?_, ?_⟩⟩ <;>
    simp [handle_data_packet, applyDataPacketError] <;> (repeat' split) <;> simp

/-- A concrete encrypted data packet that the ARQ will classify as a
duplicate: sequence number 100, one payload byte. -/
def duplicateExamplePacket : DataPacket :=
  { seq_number := 100, msg_number := 0, timestamp := 0,
    dest_socket_id := 1, payload := [7] }

/-- C5 counterexample: a data packet that decrypts with a positive
decrypted byte count (here 17) and is then classified `DiscardedDuplicate`
by the ARQ increments `rx_decrypted_data` from 0 to 1 — a statistics
counter beyond the unconditional `rx_data`/`rx_bytes` update — refuting
the claim as stated. -/
theorem duplicate_increments_rx_decrypted_data :
    (handle_data_packet initialContext duplicateExamplePacket
        (.ok (17, duplicateExamplePacket))
        (.error (DataPacketError.DiscardedDuplicate 100))).stats.rx_decrypted_data = 1 ∧
    initialContext.stats.rx_decrypted_data = 0 := by
  refine ⟨?_, rfl⟩
  decide

/-- C5 (amended): when the ARQ classifies the packet `DiscardedDuplicate`,
the handler changes nothing beyond the unconditional `rx_data`/`rx_bytes`
update and the `rx_decrypted_data` increment already made when decryption
reported a positive decrypted byte count: every other counter, the output,
the timers and the ARQ state are unchanged — in particular no control
packet is sent and no drop or error counter moves. -/
theorem discarded_duplicate_frame (st : ReceiverContext) (data d2 : DataPacket)
    (db sn : Nat) :
    handle_data_packet st data (.ok (db, d2))
        (.error (DataPacketError.DiscardedDuplicate sn)) =
      { st with stats := { st.stats with
          rx_data := st.stats.rx_data + 1,
          rx_bytes := st.stats.rx_bytes + data.wire_size,
          rx_decrypted_data :=
            st.stats.rx_decrypted_data + (if db > 0 then 1 else 0) } } := by
  by_cases hdb : db > 0 <;>
    simp [handle_data_packet, applyDataPacketError, hdb]

/-- C7: `handle_key_refresh_request` sends a `KeyRefreshResponse` exactly
when `refresh_key_material` returns `Ok(Some(response))` — appending that
one control packet and changing nothing else — while on `Ok(None)`
(duplicate key material) or on an error (malformed or unauthenticated
material) it returns the context state entirely unchanged: no packet, no
statistics change, no receiver-state change. -/
theorem key_refresh_emission (st : ReceiverContext)
    (response : KeyingMaterialMessage) (e : KeyRefreshError) :
    handle_key_refresh_request st (.ok (some response)) =
      { st with output := st.output ++
          [ControlTypes.Srt (SrtControlPacket.KeyRefreshResponse response)] } ∧
    handle_key_refresh_request st (.ok none) = st ∧
    handle_key_refresh_request st (.error e) = st :=
  ⟨rfl, rfl, rfl⟩

/-- C8: the per-connection lifecycle (spec-modelled: the Open/Draining/
Closed machine lives in connection code outside the analysed source):
`Open` accepts every event; `Draining` accepts exactly the timer events
and its processing never emits a NAK (the output is unchanged or grows by
one ACK); the transition sends every state to `Closed` on the close
timeout; and the embedded `on_close_timeout` forces the closed state by
calling `ArqState.clear` and doing nothing else. -/
theorem connection_state_machine (st : ReceiverContext) (e : ReceiverEvent)
    (s : ConnectionState) :
    accepts ConnectionState.Open e = true ∧
    accepts ConnectionState.Draining e = isTimerEvent e ∧
    ((stepInState ConnectionState.Draining st e).output = st.output ∨
      ∃ a, (stepInState ConnectionState.Draining st e).output =
        st.output ++ [ControlTypes.Ack a]) ∧
    connStep s ReceiverEvent.closeTimeout = ConnectionState.Closed ∧
    stepEvent st ReceiverEvent.closeTimeout = { st with arq := st.arq.clear } := by
  refine ⟨rfl, rfl, ?_, ?_, rfl⟩
  · cases e with
    | dataPacket data decrypted arqAction => exact Or.inl rfl
    | ack2Packet rtt => exact Or.inl rfl
    | dropRequest dropped => exact Or.inl rfl
    | keyRefreshRequest refreshed => exact Or.inl rfl
    | clockSync adjustment => exact Or.inl rfl
    | fullAckEvent ack =>
      cases ack with
      | none => exact Or.inl rfl
      | some a => exact Or.inr ⟨a, rfl⟩
    | nakEvent loss => exact Or.inl rfl
    | closeTimeout => exact Or.inl rfl
  · cases s <;> rfl

/-- C6: every `handle_data_packet` call increments `rx_data` by exactly one
and `rx_bytes` by the packet's wire size, regardless of whether decryption
or ARQ processing succeeds or fails. -/
theorem rx_data_rx_bytes_unconditional (st : ReceiverContext) (data : DataPacket)
    (decrypted : Except DecryptionError (Nat × DataPacket))
    (arqAction : Except DataPacketError DataPacketAction) :
    (handle_data_packet st data decrypted arqAction).stats.rx_data =
      st.stats.rx_data + 1 ∧
    (handle_data_packet st data decrypted arqAction).stats.rx_bytes =
      st.stats.rx_bytes + data.wire_size := by
  rcases decrypted with e | ⟨db, d2⟩
  · simp [handle_data_packet, applyDataPacketError]
  · rcases arqAction with e | action
    · cases e <;>
        simp [handle_data_packet, applyDataPacketError] <;> (repeat' split) <;> simp
    · cases action <;>
        simp [handle_data_packet, applyDataPacketAction, send_control,
          DataPacketAction.is_recovered] <;> (repeat' split) <;> simp

/-- C9: `is_recovered` returns the stored `recovered` flag for `Received`
and `ReceivedWithLightAck` and always `false` for `ReceivedWithLoss`;
consequently a data packet whose handling reports loss is counted as
unique data (`rx_unique_data`, `rx_unique_bytes`), never as a retransmit
(`rx_retransmit_data`). -/
theorem is_recovered_loss_counts_unique (st : ReceiverContext) (data d2 : DataPacket)
    (db lrsn la : Nat) (rec : Bool) (loss : CompressedLossList) :
    (DataPacketAction.Received lrsn rec).is_recovered = rec ∧
    (DataPacketAction.ReceivedWithLightAck la rec).is_recovered = rec ∧
    (DataPacketAction.ReceivedWithLoss loss).is_recovered = false ∧
    (handle_data_packet st data (.ok (db, d2))
        (.ok (DataPacketAction.ReceivedWithLoss loss))).stats.rx_unique_data =
      st.stats.rx_unique_data + 1 ∧
    (handle_data_packet st data (.ok (db, d2))
        (.ok (DataPacketAction.ReceivedWithLoss loss))).stats.rx_unique_bytes =
      st.stats.rx_unique_bytes + data.wire_size ∧
    (handle_data_packet st data (.ok (db, d2))
        (.ok (DataPacketAction.ReceivedWithLoss loss))).stats.rx_retransmit_data =
      st.stats.rx_retransmit_data := by
  refine ⟨rfl, rfl, rfl, ?_, ?_, ?_⟩ <;>
    simp [handle_data_packet, applyDataPacketAction, send_control,
      DataPacketAction.is_recovered] <;> (repeat' split) <;> simp

/-- C10: `handle_ack2_packet` increments `rx_ack2` by exactly one on both
the success and the not-found path; hence over any event sequence from the
initial context, `rx_ack2` equals the number of ACK2 packets handled and
`rx_ack2_errors ≤ rx_ack2`. -/
theorem rx_ack2_counts_all_ack2 (st : ReceiverContext) (rtt : Option Nat)
    (evs : List ReceiverEvent) :
    (handle_ack2_packet st rtt).stats.rx_ack2 = st.stats.rx_ack2 + 1 ∧
    (runEvents initialContext evs).stats.rx_ack2 = countAck2 evs ∧
    (runEvents initialContext evs).stats.rx_ack2_errors ≤
      (runEvents initialContext evs).stats.rx_ack2 := by
  have h := runEvents_ack2_counters evs initialContext
  have h0 : initialContext.stats.rx_ack2 = 0 := rfl
  have h0e : initialContext.stats.rx_ack2_errors = 0 := rfl
  refine ⟨handle_ack2_rx_ack2 st rtt, ?_, ?_⟩
  · rw [h.1, h0, Nat.zero_add]
  · have h1 := h.1
    have h2 := h.2
    rw [h0] at h1
    rw [h0e] at h2
    omega

end SrtReceiver
